import Mathlib

/-!
Shallow embedding of the `velux_active` Home Assistant integration
(`custom_components/velux_active/api.py` and `__init__.py`).

Conventions of the embedding:
 * wall-clock instants and durations (Python `datetime` / `timedelta`) are
   integers counting seconds; `datetime.now()` becomes an explicit `now`
   parameter threaded to every function that reads the clock;
 * `await`ed HTTP calls become explicit parameters describing the outcome of
   the call (its `ok` flag and parsed JSON body, or the error it raised);
 * Python exceptions become an `Except PyErr` result; mutation of
   `VeluxActiveAPI.auth_token` becomes explicit state passing of `APIState`.
-/

namespace VeluxActive

/-- A JSON scalar attribute value carried in the `**kwargs` side maps of
`VeluxHome` / `VeluxModule`.  The claims never inspect these values, only the
keys, so scalars suffice. -/
inductive PyValue where
  | str (s : String)
  | int (n : Int)
  | bool (b : Bool)
  | none
deriving DecidableEq, Repr

/-- Python exceptions that the embedded code can raise. -/
inductive PyErr where
  /-- `api.InvalidAuthError` with its message. -/
  | invalidAuth (msg : String)
  /-- `KeyError` from `VeluxModule.__getitem__`. -/
  | keyError (key : String)
  /-- `TypeError` from splatting a dict with wrong keys into a dataclass. -/
  | typeError
  /-- `aiohttp` error from `response.raise_for_status()`. -/
  | httpStatusError
  /-- failure to parse a response body as JSON. -/
  | jsonError
  /-- `AttributeError` (e.g. `None.valid_in` when no token is stored). -/
  | attributeError
  /-- any other exception (network failure etc.), with a description. -/
  | exn (s : String)
deriving DecidableEq, Repr

/-- `class VeluxHome` (`api.py`): vendor home record.  `id` and `name` are the
named constructor parameters, everything else lands in `kwargs`. -/
structure VeluxHome where
  id : String
  name : String
  kwargs : List (String × PyValue)
deriving DecidableEq, Repr

/-- `class VeluxModule` (`api.py`): raw module record.  `home`, `id`, `type`
are the named constructor parameters, everything else lands in `kwargs`. -/
structure VeluxModule where
  home : VeluxHome
  id : String
  type : String
  kwargs : List (String × PyValue)
deriving DecidableEq, Repr

/-- `VeluxHome.__eq__`: identity by `id` alone when the other operand is a
`VeluxHome`, `False` otherwise. -/
def veluxHomeEq (a b : VeluxHome) : Bool :=
  a.id == b.id

/-- `VeluxModule.__eq__`: compares `home` (via `VeluxHome.__eq__`), `id` and
`type` when the other operand is a `VeluxModule`, `False` otherwise. -/
def veluxModuleEq (a b : VeluxModule) : Bool :=
  veluxHomeEq a.home b.home && a.id == b.id && a.type == b.type

/-- A Python object appearing on either side of `==` in the claims: either a
home record or a raw module (device) record. -/
inductive PyObj where
  | homeObj (h : VeluxHome)
  | moduleObj (m : VeluxModule)
deriving DecidableEq, Repr

/-- Python `==` over the two record classes.  Both classes define `__eq__` to
return `False` (not `NotImplemented`) on a type mismatch, so cross-class
comparison is `False` regardless of the reflected operand. -/
def pyEq : PyObj → PyObj → Bool
  | .homeObj a, .homeObj b => veluxHomeEq a b
  | .homeObj _, .moduleObj _ => false
  | .moduleObj a, .moduleObj b => veluxModuleEq a b
  | .moduleObj _, .homeObj _ => false

/-- The value returned by `VeluxModule.__getitem__`: a scalar from `kwargs`,
the `id`/`type` string attributes, the `home` back-reference, or the `kwargs`
dict itself. -/
inductive ItemVal where
  | pv (v : PyValue)
  | homeRef (h : VeluxHome)
  | kwargsRef (l : List (String × PyValue))
deriving DecidableEq, Repr

/-- First-match lookup in an association list, i.e. `key in kwargs` followed
by `kwargs[key]`. -/
def alistLookup (l : List (String × PyValue)) (key : String) : Option PyValue :=
  match l with
  | [] => Option.none
  | (k, v) :: rest => if k == key then Option.some v else alistLookup rest key

/-- `VeluxModule.__getitem__`: try `kwargs` first, then the instance
attributes (`home`, `id`, `type`, `kwargs`); otherwise raise `KeyError`.
(`hasattr` would also find method names such as `keys`, but no key used by
the integration collides with a method name, so attributes suffice.) -/
def VeluxModule.getItem (m : VeluxModule) (key : String) : Except PyErr ItemVal :=
  match alistLookup m.kwargs key with
  | Option.some v => .ok (.pv v)
  | Option.none =>
    if key == "id" then .ok (.pv (.str m.id))
    else if key == "type" then .ok (.pv (.str m.type))
    else if key == "home" then .ok (.homeRef m.home)
    else if key == "kwargs" then .ok (.kwargsRef m.kwargs)
    else .error (.keyError key)

/-- `VeluxModule.keys()`: the kwargs keys followed by `id`, `type`, `home`.
This is the key set of `dict(status)` used when splatting `**status`. -/
def VeluxModule.dictKeys (m : VeluxModule) : List String :=
  m.kwargs.map Prod.fst ++ ["id", "type", "home"]

/-! ## AuthToken and the token-refresh logic (`api.py`) -/

/-- `class AuthToken` (`api.py`).  `created_at` records `datetime.now()` at
construction time; `expires_at = created_at + expires_in`.  In the source
`access_token: str`, so it is modelled as a `String` (the
`access_token is not None` conjunct of `valid_in` is then always true). -/
structure AuthToken where
  access_token : String
  refresh_token : String
  expires_in : Int
  created_at : Int
  expires_at : Int
deriving DecidableEq, Repr

/-- `AuthToken.__init__`: stores the tokens, converts `expires_in` seconds to
a duration, stamps `created_at := datetime.now()` (the explicit `now`) and
computes `expires_at := created_at + expires_in`. -/
def mkAuthToken (access refresh : String) (expires_in now : Int) : AuthToken :=
  { access_token := access
    refresh_token := refresh
    expires_in := expires_in
    created_at := now
    expires_at := now + expires_in }

/-- `AuthToken.expires(time)`: `self.expires_at < datetime.now() + time`. -/
def AuthToken.expires (tok : AuthToken) (now time : Int) : Bool :=
  decide (tok.expires_at < now + time)

/-- `AuthToken.valid_in(time)`: `access_token is not None and not
self.expires(time or timedelta(seconds=0))`.  The `or` replaces a zero (falsy)
`timedelta` by zero, which is the identity here; the `is not None` conjunct is
`true` because `access_token : String`. -/
def AuthToken.valid_in (tok : AuthToken) (now time : Int) : Bool :=
  !(tok.expires now (if time = 0 then 0 else time))

/-- The parsed JSON body of a token-endpoint response:
`{access_token, refresh_token, expires_in}`. -/
structure TokenJSON where
  access_token : String
  refresh_token : String
  expires_in : Int
deriving DecidableEq, Repr

/-- An HTTP response from the token endpoint: its `ok` flag and the parsed
JSON body (`Option.none` when the body is not valid JSON). -/
structure TokenResponse where
  ok : Bool
  body : Option TokenJSON
deriving DecidableEq, Repr

/-- Mutable state of `VeluxActiveAPI`: the stored `auth_token` field
(initially `None`). -/
structure APIState where
  auth_token : Option AuthToken
deriving DecidableEq, Repr

/-- `VeluxActiveAPI.authenticate` given the token-endpoint response `resp`
arriving at time `now`: raises `InvalidAuthError` when the response is not
ok, otherwise builds a fresh `AuthToken` from the JSON body (a JSON parse
failure propagates as a non-auth error).  On success the caller's state
stores the new token. -/
def authenticate (resp : TokenResponse) (now : Int) : Except PyErr AuthToken :=
  if !resp.ok then .error (.invalidAuth "Invalid username or password")
  else
    match resp.body with
    | Option.none => .error .jsonError
    | Option.some j => .ok (mkAuthToken j.access_token j.refresh_token j.expires_in now)

/-- `VeluxActiveAPI.refresh_access_token` given the token-endpoint response
`resp` arriving at time `now`: `response.raise_for_status()` raises on a
non-ok response, then a fresh `AuthToken` is built from the JSON body. -/
def refreshAccessToken (resp : TokenResponse) (now : Int) : Except PyErr AuthToken :=
  if !resp.ok then .error .httpStatusError
  else
    match resp.body with
    | Option.none => .error .jsonError
    | Option.some j => .ok (mkAuthToken j.access_token j.refresh_token j.expires_in now)

/-- The fixed safety margin `timedelta(hours=2, minutes=59)` used by the
`access_token` property, in seconds. -/
def refreshMargin : Int := (2 * 60 + 59) * 60

/-- The `access_token` property of `VeluxActiveAPI`: if the stored token is
not valid within the safety margin, exchange the refresh token at the token
endpoint (the response being `resp`); a failed exchange raises
`InvalidAuthError("Invalid refresh token")` and leaves the stored token
alone; a successful one replaces the stored token wholesale.  Returns the
(possibly updated) state together with the access-token string or the raised
error.  A missing stored token (`None`) raises `AttributeError`. -/
def accessToken (st : APIState) (now : Int) (resp : TokenResponse) :
    APIState × Except PyErr String :=
  match st.auth_token with
  | Option.none => (st, .error .attributeError)
  | Option.some tok =>
    if tok.valid_in now refreshMargin then
      (st, .ok tok.access_token)
    else
      match refreshAccessToken resp now with
      | .ok newTok => ({ auth_token := Option.some newTok }, .ok newTok.access_token)
      | .error _ => (st, .error (.invalidAuth "Invalid refresh token"))

/-! ## Device dataclasses and the record mapper (`__init__.py`) -/

/-- A typed device record produced by the mapper: one of the four dataclasses
`VeluxGatewayData` / `VeluxWindowData` / `VeluxShutterData` /
`VeluxSwitchData`.  Each keeps the `home` back-reference, the vendor
identifier and the remaining splatted fields verbatim (the claims inspect
only the variant and the identifier, never the typed field values). -/
inductive Device where
  | gatewayData (home : VeluxHome) (id : String) (attrs : List (String × PyValue))
  | windowData (home : VeluxHome) (id : String) (attrs : List (String × PyValue))
  | shutterData (home : VeluxHome) (id : String) (attrs : List (String × PyValue))
  | switchData (home : VeluxHome) (id : String) (attrs : List (String × PyValue))
deriving DecidableEq, Repr

/-- The vendor identifier of a device record. -/
def Device.devId : Device → String
  | .gatewayData _ i _ => i
  | .windowData _ i _ => i
  | .shutterData _ i _ => i
  | .switchData _ i _ => i

/-- Fields of `@dataclass VeluxGatewayData` without a default value. -/
def gatewayRequired : List String :=
  ["home", "busy", "calibrating", "firmware_revision_netatmo",
   "firmware_revision_thirdparty", "hardware_version", "id", "is_raining",
   "last_seen", "locked", "locking", "name", "pairing", "secure", "type",
   "wifi_strength", "wifi_state"]

/-- Fields of `VeluxGatewayData` with a default (`outdated_weather_forecast`). -/
def gatewayOptional : List String := ["outdated_weather_forecast"]

/-- Fields of `@dataclass VeluxWindowData` (all required). -/
def windowRequired : List String :=
  ["home", "current_position", "firmware_revision", "id", "last_seen",
   "manufacturer", "mode", "reachable", "silent", "target_position", "type",
   "velux_type", "bridge", "rain_position", "secure_position"]

/-- Fields of `@dataclass VeluxShutterData` (all required). -/
def shutterRequired : List String :=
  ["home", "current_position", "firmware_revision", "id", "last_seen",
   "manufacturer", "mode", "reachable", "silent", "target_position", "type",
   "velux_type", "bridge"]

/-- Fields of `@dataclass VeluxSwitchData` (all required). -/
def switchRequired : List String :=
  ["home", "battery_level", "battery_percent", "firmware_revision", "id",
   "last_seen", "reachable", "rf_strength", "type", "bridge", "battery_state",
   "rf_state"]

/-- Whether splatting `**status` into a dataclass with the given required and
optional field names succeeds: every required field must be among the dict
keys, and every dict key must name a field (otherwise Python raises
`TypeError` for a missing / unexpected keyword argument). -/
def splatOk (m : VeluxModule) (required optional : List String) : Bool :=
  required.all (fun k => m.dictKeys.contains k) &&
    m.dictKeys.all (fun k => (required ++ optional).contains k)

/-- `Dataclass(**status)`: `TypeError` when the keys do not line up, otherwise
the record built from the dict — whose `id` and `home` entries are exactly
`status.id` and `status.home` (they are bound constructor parameters of
`VeluxModule`, so they can never be shadowed by `kwargs`). -/
def splatInto (m : VeluxModule) (required optional : List String)
    (ctor : VeluxHome → String → List (String × PyValue) → Device) :
    Except PyErr Device :=
  if splatOk m required optional then .ok (ctor m.home m.id m.kwargs)
  else .error .typeError

/-- `_convert_status_to_sensor` (`__init__.py`): discriminate on
`status.type`, and for `"NXO"` further on `status['velux_type']`; unknown
combinations return `None`; a missing `velux_type` key raises `KeyError`
through `VeluxModule.__getitem__`. -/
def convertStatusToSensor (status : VeluxModule) : Except PyErr (Option Device) :=
  match status.type with
  | "NXG" => (splatInto status gatewayRequired gatewayOptional .gatewayData).map Option.some
  | "NXS" => (splatInto status switchRequired [] .switchData).map Option.some
  | "NXO" =>
    match status.getItem "velux_type" with
    | .error e => .error e
    | .ok v =>
      match v with
      | .pv (.str "shutter") =>
        (splatInto status shutterRequired [] .shutterData).map Option.some
      | .pv (.str "window") =>
        (splatInto status windowRequired [] .windowData).map Option.some
      | _ => .ok Option.none
  | _ => .ok Option.none

/-! ## The refresh cycle `async_update_data` (`__init__.py`) -/

/-- The snapshot produced by one successful refresh cycle: the insertion-order
mapping from each home to its list of typed device records
(`data[home] = {"devices": devices}`). -/
abbrev Snapshot := List (VeluxHome × List Device)

/-- Environment of one refresh cycle: the outcome of every `await`ed call it
may make.  `homesResult` is the outcome of `api_client.get_home_data()`;
`statusesOf h` the outcome of `api_client.get_home_statuses(h)` (both may
raise `InvalidAuthError` out of the `access_token` property, or any
network/parse error); `authFn u p` the outcome of
`api_client.authenticate(u, p)`; `username` / `password` are
`entry.data["username"]` / `entry.data["password"]`. -/
structure CycleEnv where
  homesResult : Except PyErr (List VeluxHome)
  statusesOf : VeluxHome → Except PyErr (List VeluxModule)
  username : String
  password : String
  authFn : String → String → Except PyErr AuthToken

/-- The inner `for status in statuses` loop: convert each raw record, keep the
non-`None` ones in order, propagate any exception. -/
def processStatuses : List VeluxModule → List Device → Except PyErr (List Device)
  | [], acc => .ok acc
  | s :: rest, acc =>
    match convertStatusToSensor s with
    | .error e => .error e
    | .ok Option.none => processStatuses rest acc
    | .ok (Option.some d) => processStatuses rest (acc ++ [d])

/-- The body of one iteration of the `for home in homes` loop: fetch the
home's statuses and convert them. -/
def processOneHome (env : CycleEnv) (home : VeluxHome) : Except PyErr (List Device) :=
  match env.statusesOf home with
  | .error e => .error e
  | .ok statuses => processStatuses statuses []

/-- The `for home in homes` loop: sequential, aborting at the first failing
home (each later home is only reached once every earlier one succeeded). -/
def processHomes (env : CycleEnv) : List VeluxHome → Snapshot → Except PyErr Snapshot
  | [], acc => .ok acc
  | home :: rest, acc =>
    match processOneHome env home with
    | .error e => .error e
    | .ok devices => processHomes env rest (acc ++ [(home, devices)])

/-- The `try` body of `async_update_data`: fetch the home list, then process
each home in order. -/
def updateBody (env : CycleEnv) : Except PyErr Snapshot :=
  match env.homesResult with
  | .error e => .error e
  | .ok homes => processHomes env homes []

/-- The outcome of one call of `async_update_data`: a snapshot, an
`UpdateFailed` (carrying the causing exception `from err`), or an exception
escaping unhandled (raised inside an `except` handler, thus caught by
neither clause). -/
inductive CycleResult where
  | ok (snap : Snapshot)
  | updateFailed (cause : PyErr)
  | raised (e : PyErr)
deriving DecidableEq, Repr

/-- `async_update_data`: run the body; on `InvalidAuthError` re-authenticate
with the configured credentials and raise `UpdateFailed` — but an exception
raised by the re-authentication itself propagates out of both `except`
clauses; on any other exception raise `UpdateFailed`. -/
def asyncUpdateData (env : CycleEnv) : CycleResult :=
  match updateBody env with
  | .ok snap => .ok snap
  | .error (.invalidAuth msg) =>
    match env.authFn env.username env.password with
    | .ok _ => .updateFailed (.invalidAuth msg)
    | .error e => .raised e
  | .error e => .updateFailed e

/-! ## Concrete sample records (used by witnesses) -/

/-- A concrete home. -/
def wHome : VeluxHome := ⟨"h1", "Casa", []⟩

/-- A concrete well-formed `"NXG"` gateway record. -/
def wGateway : VeluxModule :=
  ⟨wHome, "g1", "NXG",
   [("busy", .bool false), ("calibrating", .bool false),
    ("firmware_revision_netatmo", .int 1),
    ("firmware_revision_thirdparty", .str "x"), ("hardware_version", .int 1),
    ("is_raining", .bool false), ("last_seen", .int 0), ("locked", .bool true),
    ("locking", .bool false), ("name", .str "gw"), ("pairing", .str "idle"),
    ("secure", .bool true), ("wifi_strength", .int 50),
    ("wifi_state", .str "ok")]⟩

/-- A concrete well-formed `"NXS"` switch record. -/
def wSwitch : VeluxModule :=
  ⟨wHome, "s1", "NXS",
   [("battery_level", .int 3000), ("battery_percent", .int 80),
    ("firmware_revision", .int 2), ("last_seen", .int 0),
    ("reachable", .bool true), ("rf_strength", .int 60), ("bridge", .str "g1"),
    ("battery_state", .str "full"), ("rf_state", .str "ok")]⟩

/-- A concrete well-formed `"NXO"` shutter record. -/
def wShutter : VeluxModule :=
  ⟨wHome, "r1", "NXO",
   [("current_position", .int 0), ("firmware_revision", .int 2),
    ("last_seen", .int 0), ("manufacturer", .str "Velux"),
    ("mode", .str "auto"), ("reachable", .bool true), ("silent", .bool false),
    ("target_position", .int 0), ("velux_type", .str "shutter"),
    ("bridge", .str "g1")]⟩

/-- A concrete well-formed `"NXO"` window record. -/
def wWindow : VeluxModule :=
  ⟨wHome, "w1", "NXO",
   [("current_position", .int 0), ("firmware_revision", .int 2),
    ("last_seen", .int 0), ("manufacturer", .str "Velux"),
    ("mode", .str "auto"), ("reachable", .bool true), ("silent", .bool false),
    ("target_position", .int 0), ("velux_type", .str "window"),
    ("bridge", .str "g1"), ("rain_position", .int 100),
    ("secure_position", .int 95)]⟩

/-- A concrete record of an unknown type code. -/
def wUnknownType : VeluxModule := ⟨wHome, "u1", "XXX", []⟩

/-- A concrete `"NXO"` record with an unknown `velux_type`. -/
def wUnknownSub : VeluxModule :=
  ⟨wHome, "u2", "NXO", [("velux_type", .str "light")]⟩

/-- A concrete `"NXO"` record with no `velux_type` key at all. -/
def wNoVeluxType : VeluxModule :=
  ⟨wHome, "u3", "NXO", [("bridge", .str "g1")]⟩

/-! ## Theorems -/

/-- C2: for every `AuthToken` and every non-negative safety margin `m`, the
token needs refresh (`valid_in` is `false`, i.e. `expires` is `true`) exactly
when the remaining margin `expires_at - now` is strictly below `m`; when the
remaining margin is at least `m` the token is reported valid. -/
theorem token_validity_iff_margin (tok : AuthToken) (now m : Int) (_h : 0 ≤ m) :
    (tok.valid_in now m = false ↔ tok.expires_at - now < m) ∧
    (tok.valid_in now m = !tok.expires now m) ∧
    (m ≤ tok.expires_at - now → tok.valid_in now m = true) := by
  unfold AuthToken.valid_in AuthToken.expires
  by_cases hm : m = 0 <;> simp [hm] <;> omega

/-- Witness for `token_validity_iff_margin` at a concrete token and margin. -/
theorem token_validity_iff_margin_witness :
    ((mkAuthToken "a" "r" 10 100).valid_in 107 5 = false ↔
      (mkAuthToken "a" "r" 10 100).expires_at - 107 < 5) ∧
    ((mkAuthToken "a" "r" 10 100).valid_in 107 5 =
      !(mkAuthToken "a" "r" 10 100).expires 107 5) ∧
    (5 ≤ (mkAuthToken "a" "r" 10 100).expires_at - 107 →
      (mkAuthToken "a" "r" 10 100).valid_in 107 5 = true) :=
  token_validity_iff_margin (mkAuthToken "a" "r" 10 100) 107 5 (by decide)

/-- C4: a token built from a token-endpoint response satisfies
`expires_at = created_at + expires_in` with `created_at` the issue time, and
a successful refresh returns a wholesale new `AuthToken` built from the
response alone (no field of the old token is reused or mutated). -/
theorem authtoken_expiry_invariant (a r : String) (e t : Int)
    (resp : TokenResponse) (now : Int) (j : TokenJSON)
    (hok : resp.ok = true) (hbody : resp.body = Option.some j) :
    (mkAuthToken a r e t).expires_at = (mkAuthToken a r e t).created_at + e ∧
    (mkAuthToken a r e t).created_at = t ∧
    (mkAuthToken a r e t).expires_in = e ∧
    refreshAccessToken resp now =
      .ok (mkAuthToken j.access_token j.refresh_token j.expires_in now) := by
  refine ⟨rfl, rfl, rfl, ?_⟩
  simp [refreshAccessToken, hok, hbody]

/-- Witness for `authtoken_expiry_invariant` at a concrete response. -/
theorem authtoken_expiry_invariant_witness :
    (mkAuthToken "a" "r" 10800 0).expires_at =
      (mkAuthToken "a" "r" 10800 0).created_at + 10800 ∧
    (mkAuthToken "a" "r" 10800 0).created_at = 0 ∧
    (mkAuthToken "a" "r" 10800 0).expires_in = 10800 ∧
    refreshAccessToken ⟨true, Option.some ⟨"a", "r", 10800⟩⟩ 0 =
      .ok (mkAuthToken "a" "r" 10800 0) :=
  authtoken_expiry_invariant "a" "r" 10800 0
    ⟨true, Option.some ⟨"a", "r", 10800⟩⟩ 0 ⟨"a", "r", 10800⟩ rfl rfl

/-- C5: `VeluxHome` equality is by identifier alone — two homes with
identifier `"h1"` are equal whatever their names and extra attributes; homes
with different identifiers are unequal; and a home never equals a module
record, even one carrying the same identifier. -/
theorem home_equality_by_id (n1 n2 : String) (k1 k2 : List (String × PyValue))
    (h h' : VeluxHome) (m : VeluxModule) (hne : h.id ≠ h'.id) :
    pyEq (.homeObj ⟨"h1", n1, k1⟩) (.homeObj ⟨"h1", n2, k2⟩) = true ∧
    pyEq (.homeObj h) (.homeObj h') = false ∧
    pyEq (.homeObj h) (.moduleObj m) = false := by
  refine ⟨?_, ?_, rfl⟩
  · simp [pyEq, veluxHomeEq]
  · simp [pyEq, veluxHomeEq, hne]

/-- Witness for `home_equality_by_id` at concrete homes and a module with the
same identifier as the home. -/
theorem home_equality_by_id_witness :
    pyEq (.homeObj ⟨"h1", "Casa", []⟩) (.homeObj ⟨"h1", "anything", []⟩) = true ∧
    pyEq (.homeObj ⟨"h1", "Casa", []⟩) (.homeObj ⟨"h2", "Casa", []⟩) = false ∧
    pyEq (.homeObj ⟨"h1", "Casa", []⟩)
      (.moduleObj ⟨⟨"h1", "Casa", []⟩, "h1", "NXG", []⟩) = false :=
  home_equality_by_id "Casa" "anything" [] [] ⟨"h1", "Casa", []⟩ ⟨"h2", "Casa", []⟩
    ⟨⟨"h1", "Casa", []⟩, "h1", "NXG", []⟩ (by decide)

/-- C1: the mapper follows the discriminator: an `"NXG"` record yields a
Gateway record and an `"NXS"` record a Switch record; an `"NXO"` record
yields a Shutter or Window record according to its `velux_type`; each
produced record keeps the raw record's identifier; and any other
`(type, sub_type)` combination yields `None`, not an error.  The splat
hypotheses say the raw record carries exactly the fields of its variant
(otherwise Python's dataclass call raises `TypeError`). -/
theorem mapper_discriminator (m : VeluxModule) :
    (m.type ≠ "NXG" → m.type ≠ "NXS" → m.type ≠ "NXO" →
      convertStatusToSensor m = .ok Option.none) ∧
    (m.type = "NXG" → splatOk m gatewayRequired gatewayOptional = true →
      convertStatusToSensor m = .ok (Option.some (.gatewayData m.home m.id m.kwargs)) ∧
      (Device.gatewayData m.home m.id m.kwargs).devId = m.id) ∧
    (m.type = "NXS" → splatOk m switchRequired [] = true →
      convertStatusToSensor m = .ok (Option.some (.switchData m.home m.id m.kwargs)) ∧
      (Device.switchData m.home m.id m.kwargs).devId = m.id) ∧
    (m.type = "NXO" → m.getItem "velux_type" = .ok (.pv (.str "shutter")) →
      splatOk m shutterRequired [] = true →
      convertStatusToSensor m = .ok (Option.some (.shutterData m.home m.id m.kwargs)) ∧
      (Device.shutterData m.home m.id m.kwargs).devId = m.id) ∧
    (m.type = "NXO" → m.getItem "velux_type" = .ok (.pv (.str "window")) →
      splatOk m windowRequired [] = true →
      convertStatusToSensor m = .ok (Option.some (.windowData m.home m.id m.kwargs)) ∧
      (Device.windowData m.home m.id m.kwargs).devId = m.id) ∧
    (∀ v : ItemVal, m.type = "NXO" → m.getItem "velux_type" = .ok v →
      v ≠ .pv (.str "shutter") → v ≠ .pv (.str "window") →
      convertStatusToSensor m = .ok Option.none) := by
  refine ⟨?_, ?_, ?_, ?_, ?_, ?_⟩
  · intro h1 h2 h3
    unfold convertStatusToSensor
    split <;> simp_all
  · intro ht hs
    rw [show convertStatusToSensor m =
        (match m.type with
         | "NXG" => (splatInto m gatewayRequired gatewayOptional .gatewayData).map Option.some
         | "NXS" => (splatInto m switchRequired [] .switchData).map Option.some
         | "NXO" =>
           match m.getItem "velux_type" with
           | .error e => .error e
           | .ok v =>
             match v with
             | .pv (.str "shutter") =>
               (splatInto m shutterRequired [] .shutterData).map Option.some
             | .pv (.str "window") =>
               (splatInto m windowRequired [] .windowData).map Option.some
             | _ => .ok Option.none
         | _ => .ok Option.none) from rfl, ht]
    simp [splatInto, hs, Device.devId, Except.map]
  · intro ht hs
    unfold convertStatusToSensor
    rw [ht]
    simp [splatInto, hs, Device.devId, Except.map]
  · intro ht hv hs
    unfold convertStatusToSensor
    rw [ht, hv]
    simp [splatInto, hs, Device.devId, Except.map]
  · intro ht hv hs
    unfold convertStatusToSensor
    rw [ht, hv]
    simp [splatInto, hs, Device.devId, Except.map]
  · intro v ht hv hvs hvw
    unfold convertStatusToSensor
    rw [ht, hv]
    rcases v with pv | h | l
    · rcases pv with s | n | b | _
      · rcases hstr : s with ⟨chars⟩
        simp only
        split <;> simp_all
      · rfl
      · rfl
      · rfl
    · rfl
    · rfl

/-- Witness for `mapper_discriminator`: each branch evaluated at a concrete
record. -/
theorem mapper_discriminator_witness :
    convertStatusToSensor wUnknownType = .ok Option.none ∧
    (convertStatusToSensor wGateway =
        .ok (Option.some (.gatewayData wGateway.home wGateway.id wGateway.kwargs)) ∧
      (Device.gatewayData wGateway.home wGateway.id wGateway.kwargs).devId = wGateway.id) ∧
    (convertStatusToSensor wSwitch =
        .ok (Option.some (.switchData wSwitch.home wSwitch.id wSwitch.kwargs)) ∧
      (Device.switchData wSwitch.home wSwitch.id wSwitch.kwargs).devId = wSwitch.id) ∧
    (convertStatusToSensor wShutter =
        .ok (Option.some (.shutterData wShutter.home wShutter.id wShutter.kwargs)) ∧
      (Device.shutterData wShutter.home wShutter.id wShutter.kwargs).devId = wShutter.id) ∧
    (convertStatusToSensor wWindow =
        .ok (Option.some (.windowData wWindow.home wWindow.id wWindow.kwargs)) ∧
      (Device.windowData wWindow.home wWindow.id wWindow.kwargs).devId = wWindow.id) ∧
    convertStatusToSensor wUnknownSub = .ok Option.none :=
  ⟨(mapper_discriminator wUnknownType).1 (by decide) (by decide) (by decide),
   (mapper_discriminator wGateway).2.1 rfl (by decide),
   (mapper_discriminator wSwitch).2.2.1 rfl (by decide),
   (mapper_discriminator wShutter).2.2.2.1 rfl rfl (by decide),
   (mapper_discriminator wWindow).2.2.2.2.1 rfl rfl (by decide),
   (mapper_discriminator wUnknownSub).2.2.2.2.2 (.pv (.str "light")) rfl rfl
     (by decide) (by decide)⟩

/-- C3: when the stored token needs refreshing and the refresh fails (the
token endpoint errors or its body does not parse), the `access_token`
property raises `InvalidAuthError` and the stored `auth_token` field is left
unchanged. -/
theorem failed_refresh_raises_and_keeps_token (st : APIState) (tok : AuthToken)
    (now : Int) (resp : TokenResponse) (e : PyErr)
    (hst : st.auth_token = Option.some tok)
    (hinvalid : tok.valid_in now refreshMargin = false)
    (hfail : refreshAccessToken resp now = .error e) :
    accessToken st now resp = (st, .error (.invalidAuth "Invalid refresh token")) := by
  simp [accessToken, hst, hinvalid, hfail]

/-- Witness for `failed_refresh_raises_and_keeps_token`: an expired token and
a failing token endpoint. -/
theorem failed_refresh_raises_and_keeps_token_witness :
    accessToken ⟨Option.some (mkAuthToken "a" "r" 10800 0)⟩ 20000 ⟨false, Option.none⟩ =
      (⟨Option.some (mkAuthToken "a" "r" 10800 0)⟩,
        .error (.invalidAuth "Invalid refresh token")) :=
  failed_refresh_raises_and_keeps_token ⟨Option.some (mkAuthToken "a" "r" 10800 0)⟩
    (mkAuthToken "a" "r" 10800 0) 20000 ⟨false, Option.none⟩ .httpStatusError
    rfl (by decide) rfl

/-- C9: for a token with the vendor lifetime `expires_in = 10800` (3 hours),
the `access_token` property returns the stored token unchanged whenever the
remaining margin `expires_at - now` is at least the fixed safety margin of
2 h 59 min (10740 s), and exchanges the refresh token for a fresh token
exactly when the remaining margin has dropped below that threshold; at issue
time the token answers valid for margin queries up to 10800 s and invalid
beyond. -/
theorem three_hour_token_margins (a r : String) (t0 now m : Int)
    (resp : TokenResponse) (_hm : 0 ≤ m) :
    (refreshMargin ≤ (mkAuthToken a r 10800 t0).expires_at - now →
      accessToken ⟨Option.some (mkAuthToken a r 10800 t0)⟩ now resp =
        (⟨Option.some (mkAuthToken a r 10800 t0)⟩, .ok a)) ∧
    ((mkAuthToken a r 10800 t0).expires_at - now < refreshMargin →
      ∀ j : TokenJSON, resp.ok = true → resp.body = Option.some j →
      accessToken ⟨Option.some (mkAuthToken a r 10800 t0)⟩ now resp =
        (⟨Option.some (mkAuthToken j.access_token j.refresh_token j.expires_in now)⟩,
          .ok j.access_token)) ∧
    ((mkAuthToken a r 10800 t0).valid_in t0 m = true ↔ m ≤ 10800) ∧
    refreshMargin = 2 * 60 * 60 + 59 * 60 := by
  refine ⟨?_, ?_, ?_, by unfold refreshMargin; norm_num⟩
  · intro hrem
    have hv : (mkAuthToken a r 10800 t0).valid_in now refreshMargin = true := by
      simp only [AuthToken.valid_in, AuthToken.expires, refreshMargin, mkAuthToken] at *
      norm_num at *
      omega
    simp only [accessToken]
    rw [hv]
    simp [mkAuthToken]
  · intro hrem j hok hbody
    have hv : (mkAuthToken a r 10800 t0).valid_in now refreshMargin = false := by
      simp only [AuthToken.valid_in, AuthToken.expires, refreshMargin, mkAuthToken] at *
      norm_num at *
      omega
    simp only [accessToken]
    rw [hv]
    simp [refreshAccessToken, hok, hbody, mkAuthToken]
  · by_cases hm0 : m = 0 <;>
      simp [AuthToken.valid_in, AuthToken.expires, mkAuthToken, hm0] <;> omega

/-- Witness for `three_hour_token_margins`: a token issued at time `0`; at
`now = 60` (remaining 10740 s) it is returned unchanged, at `now = 61`
(remaining 10739 s) the refresh token is exchanged; at issue time margin
10800 s is valid and margin 10801 s is not. -/
theorem three_hour_token_margins_witness :
    accessToken ⟨Option.some (mkAuthToken "a" "r" 10800 0)⟩ 60
        ⟨true, Option.some ⟨"b", "s", 10800⟩⟩ =
      (⟨Option.some (mkAuthToken "a" "r" 10800 0)⟩, .ok "a") ∧
    accessToken ⟨Option.some (mkAuthToken "a" "r" 10800 0)⟩ 61
        ⟨true, Option.some ⟨"b", "s", 10800⟩⟩ =
      (⟨Option.some (mkAuthToken "b" "s" 10800 61)⟩, .ok "b") ∧
    ((mkAuthToken "a" "r" 10800 0).valid_in 0 10800 = true ↔ (10800 : Int) ≤ 10800) ∧
    ((mkAuthToken "a" "r" 10800 0).valid_in 0 10801 = true ↔ (10801 : Int) ≤ 10800) :=
  ⟨(three_hour_token_margins "a" "r" 0 60 1 ⟨true, Option.some ⟨"b", "s", 10800⟩⟩
      (by decide)).1 (by decide),
   (three_hour_token_margins "a" "r" 0 61 1 ⟨true, Option.some ⟨"b", "s", 10800⟩⟩
      (by decide)).2.1 (by decide) ⟨"b", "s", 10800⟩ rfl rfl,
   (three_hour_token_margins "a" "r" 0 0 10800 ⟨true, Option.some ⟨"b", "s", 10800⟩⟩
      (by decide)).2.2.1,
   (three_hour_token_margins "a" "r" 0 0 10801 ⟨true, Option.some ⟨"b", "s", 10800⟩⟩
      (by decide)).2.2.1⟩

/-! ## Concrete cycle environments (used by witnesses and counterexamples) -/

/-- A cycle whose home-list fetch raises `InvalidAuthError` and whose
re-authentication also fails (rejected credentials). -/
def cEnvReauthFail : CycleEnv :=
  { homesResult := .error (.invalidAuth "token expired")
    statusesOf := fun _ => .ok []
    username := "u"
    password := "p"
    authFn := fun _ _ => .error (.invalidAuth "Invalid username or password") }

/-- A cycle whose home-list fetch raises `InvalidAuthError` and whose
re-authentication succeeds. -/
def cEnvReauthOk : CycleEnv :=
  { homesResult := .error (.invalidAuth "token expired")
    statusesOf := fun _ => .ok []
    username := "u"
    password := "p"
    authFn := fun _ _ => .ok (mkAuthToken "a" "r" 10800 0) }

/-- A cycle whose home-list fetch fails with a non-auth (parse) error. -/
def cEnvJsonFail : CycleEnv :=
  { homesResult := .error .jsonError
    statusesOf := fun _ => .ok []
    username := "u"
    password := "p"
    authFn := fun _ _ => .ok (mkAuthToken "a" "r" 10800 0) }

/-- A two-home cycle where the first home's status fetch succeeds and the
second one's fails with a network error. -/
def cEnvSeqFail : CycleEnv :=
  { homesResult := .ok [wHome, ⟨"h2", "B", []⟩]
    statusesOf := fun hm => if hm.id == "h2" then .error (.exn "timeout") else .ok []
    username := "u"
    password := "p"
    authFn := fun _ _ => .ok (mkAuthToken "a" "r" 10800 0) }

/-- A one-home cycle whose only raw record is an `"NXO"` module without a
`velux_type` key. -/
def cEnvNoVeluxType : CycleEnv :=
  { homesResult := .ok [wHome]
    statusesOf := fun _ => .ok [wNoVeluxType]
    username := "u"
    password := "p"
    authFn := fun _ _ => .ok (mkAuthToken "a" "r" 10800 0) }

/-- C6 counterexample: in `cEnvReauthFail` the refresh cycle raises an
authentication error and the re-authentication attempt fails too; the cycle
then terminates with the re-authentication's `InvalidAuthError` propagating
unhandled, not with an `UpdateFailed`. -/
theorem reauth_failure_escapes_unwrapped :
    asyncUpdateData cEnvReauthFail =
      .raised (.invalidAuth "Invalid username or password") ∧
    ∀ c : PyErr, asyncUpdateData cEnvReauthFail ≠ .updateFailed c := by
  refine ⟨rfl, fun c h => ?_⟩
  rw [show asyncUpdateData cEnvReauthFail =
      .raised (.invalidAuth "Invalid username or password") from rfl] at h
  exact CycleResult.noConfusion h

/-- C6 (amended): whenever the refresh cycle body raises an authentication
error, the coordinator re-authenticates with the originally configured
username and password; if that re-authentication succeeds the cycle raises
`UpdateFailed`, but if the re-authentication itself fails, its exception
propagates out of `async_update_data` unwrapped. -/
theorem auth_error_triggers_reauth (env : CycleEnv) (msg : String)
    (hbody : updateBody env = .error (.invalidAuth msg)) :
    (∀ tok : AuthToken, env.authFn env.username env.password = .ok tok →
      asyncUpdateData env = .updateFailed (.invalidAuth msg)) ∧
    (∀ e : PyErr, env.authFn env.username env.password = .error e →
      asyncUpdateData env = .raised e) := by
  constructor
  · intro tok htok
    unfold asyncUpdateData
    rw [hbody, htok]
  · intro e he
    unfold asyncUpdateData
    rw [hbody, he]

/-- Witness for `auth_error_triggers_reauth`: the successful-re-auth branch
at `cEnvReauthOk` and the failing-re-auth branch at `cEnvReauthFail`. -/
theorem auth_error_triggers_reauth_witness :
    asyncUpdateData cEnvReauthOk = .updateFailed (.invalidAuth "token expired") ∧
    asyncUpdateData cEnvReauthFail =
      .raised (.invalidAuth "Invalid username or password") :=
  ⟨(auth_error_triggers_reauth cEnvReauthOk "token expired" rfl).1
      (mkAuthToken "a" "r" 10800 0) rfl,
   (auth_error_triggers_reauth cEnvReauthFail "token expired" rfl).2
      (.invalidAuth "Invalid username or password") rfl⟩

/-- C7: any exception other than `InvalidAuthError` raised by the body of a
refresh cycle is caught and re-raised wrapped as `UpdateFailed`. -/
theorem nonauth_error_wrapped (env : CycleEnv) (e : PyErr)
    (hbody : updateBody env = .error e) (hna : ∀ msg, e ≠ .invalidAuth msg) :
    asyncUpdateData env = .updateFailed e := by
  unfold asyncUpdateData
  rw [hbody]
  cases e with
  | invalidAuth msg => exact absurd rfl (hna msg)
  | _ => rfl

/-- Witness for `nonauth_error_wrapped`: a cycle whose home-list fetch fails
to parse. -/
theorem nonauth_error_wrapped_witness :
    asyncUpdateData cEnvJsonFail = .updateFailed .jsonError :=
  nonauth_error_wrapped cEnvJsonFail .jsonError rfl
    (fun _ h => PyErr.noConfusion h)

/-- The `for home in homes` loop aborts at the first failing home: if every
home before it succeeds and `h`'s processing fails with `e`, the whole loop
fails with `e`, from any accumulator. -/
theorem processHomes_first_failure (env : CycleEnv) (h : VeluxHome) (e : PyErr)
    (post : List VeluxHome) :
    ∀ (pre : List VeluxHome) (acc : Snapshot),
      (∀ h' ∈ pre, ∃ ds, processOneHome env h' = .ok ds) →
      processOneHome env h = .error e →
      processHomes env (pre ++ h :: post) acc = .error e := by
  intro pre
  induction pre with
  | nil =>
    intro acc _ hfail
    simp [processHomes, hfail]
  | cons h0 rest ih =>
    intro acc hpre hfail
    obtain ⟨ds, hds⟩ := hpre h0 (List.mem_cons_self h0 rest)
    rw [List.cons_append]
    unfold processHomes
    rw [hds]
    exact ih _ (fun h' hmem => hpre h' (List.mem_cons_of_mem h0 hmem)) hfail

/-- C8: a refresh cycle is all-or-nothing — homes are processed sequentially
and the cycle aborts at the first home whose status fetch fails, raising a
cycle-level failure and publishing no mapping at all (no partial aggregate
of the earlier homes' results). -/
theorem cycle_all_or_nothing (env : CycleEnv) (pre post : List VeluxHome)
    (h : VeluxHome) (e : PyErr)
    (hhomes : env.homesResult = .ok (pre ++ h :: post))
    (hpre : ∀ h' ∈ pre, ∃ ds, processOneHome env h' = .ok ds)
    (hfail : env.statusesOf h = .error e) :
    updateBody env = .error e ∧
    ∀ snap : Snapshot, asyncUpdateData env ≠ .ok snap := by
  have hone : processOneHome env h = .error e := by
    simp [processOneHome, hfail]
  have hb : updateBody env = .error e := by
    unfold updateBody
    rw [hhomes]
    exact processHomes_first_failure env h e post pre [] hpre hone
  refine ⟨hb, fun snap hcontra => ?_⟩
  unfold asyncUpdateData at hcontra
  rw [hb] at hcontra
  cases e with
  | invalidAuth msg =>
    cases henv : env.authFn env.username env.password <;>
      simp [henv] at hcontra
  | _ => exact CycleResult.noConfusion hcontra

/-- Witness for `cycle_all_or_nothing`: in `cEnvSeqFail` the first home
succeeds and the second one's fetch fails, so the whole cycle errors. -/
theorem cycle_all_or_nothing_witness :
    updateBody cEnvSeqFail = .error (.exn "timeout") ∧
    ∀ snap : Snapshot, asyncUpdateData cEnvSeqFail ≠ .ok snap :=
  cycle_all_or_nothing cEnvSeqFail [wHome] [] ⟨"h2", "B", []⟩ (.exn "timeout")
    rfl
    (fun h' hmem => by
      rw [List.mem_singleton] at hmem
      exact ⟨[], by rw [hmem]; rfl⟩)
    rfl

/-- C10: an `"NXO"` record with no `velux_type` key makes the mapper raise
`KeyError` through `VeluxModule.__getitem__` instead of returning `None`,
and a cycle containing such a record aborts as an `UpdateFailed` transient
failure rather than silently dropping the record. -/
theorem missing_velux_type_raises (m : VeluxModule)
    (ht : m.type = "NXO")
    (hnk : alistLookup m.kwargs "velux_type" = Option.none) :
    convertStatusToSensor m = .error (.keyError "velux_type") ∧
    ∀ (env : CycleEnv) (h : VeluxHome), env.homesResult = .ok [h] →
      env.statusesOf h = .ok [m] →
      asyncUpdateData env = .updateFailed (.keyError "velux_type") := by
  have hget : m.getItem "velux_type" = .error (.keyError "velux_type") := by
    simp [VeluxModule.getItem, hnk]
  have hconv : convertStatusToSensor m = .error (.keyError "velux_type") := by
    unfold convertStatusToSensor
    rw [ht, hget]
    rfl
  refine ⟨hconv, fun env h he hs => ?_⟩
  have hb : updateBody env = .error (.keyError "velux_type") := by
    unfold updateBody
    rw [he]
    unfold processHomes processOneHome
    rw [hs]
    unfold processStatuses
    rw [hconv]
  unfold asyncUpdateData
  rw [hb]

/-- Witness for `missing_velux_type_raises`: the concrete record
`wNoVeluxType` and the one-home cycle `cEnvNoVeluxType` around it. -/
theorem missing_velux_type_raises_witness :
    convertStatusToSensor wNoVeluxType = .error (.keyError "velux_type") ∧
    asyncUpdateData cEnvNoVeluxType = .updateFailed (.keyError "velux_type") :=
  ⟨(missing_velux_type_raises wNoVeluxType rfl rfl).1,
   (missing_velux_type_raises wNoVeluxType rfl rfl).2 cEnvNoVeluxType wHome
      rfl rfl⟩

end VeluxActive
